import Mathlib

/-!
Verification development for the SurfaceFlinger `PowerAdvisor` engine
(`services/surfaceflinger/DisplayHardware/PowerAdvisor.cpp`).

Time points and durations are modelled as unbounded integers (nanoseconds);
the data model of the spec states all arithmetic is exact integer arithmetic.
A C++ `std::optional` dereference `*x` is modelled as `x.getD 0` at the places
where the source dereferences without checking (the value is only meaningful
in states where the field is populated, matching the source's assumptions).
Fences are tri-state poll results: pending, invalid, or signaled at a time.
-/

namespace PowerAdvisor

/-- Tri-state result of polling a fence's signal time
(`Fence::SIGNAL_TIME_PENDING`, `Fence::SIGNAL_TIME_INVALID`, or a real time). -/
inductive FenceSignal where
  | pending
  | invalid
  | signaled (t : Int)
deriving DecidableEq

abbrev DisplayId := Nat

/-- Per-display mutable timing state, from `PowerAdvisor::DisplayTimingData`.
The field list follows the source's uses in `PowerAdvisor.cpp`; fields start
unset (empty optionals / false booleans), as default-constructed members do.
`gpuEndFenceTime` is `none` when the fence pointer is null, and otherwise
holds the tri-state poll result of `getSignalTime()`. -/
structure DisplayTimingData where
  hwcPresentStartTime : Option Int := none
  hwcPresentEndTime : Option Int := none
  hwcValidateStartTime : Option Int := none
  hwcValidateEndTime : Option Int := none
  hwcPresentDelayedTime : Option Int := none
  gpuStartTime : Option Int := none
  lastValidGpuStartTime : Option Int := none
  lastValidGpuEndTime : Option Int := none
  gpuEndFenceTime : Option FenceSignal := none
  skippedValidate : Bool := false
  requiresRenderEngine : Bool := false
deriving DecidableEq

/-- Output of `DisplayTimingData::calculateDisplayTimeline`. -/
structure DisplayTimeline where
  hwcPresentStartTime : Int
  hwcPresentEndTime : Int
  hwcPresentDelayDuration : Int
  presentFenceWaitStartTime : Int
  probablyWaitsForPresentFence : Bool
  postPresentFenceHwcPresentDuration : Int
deriving DecidableEq

/-- Output of `DisplayTimingData::estimateGpuTiming`. -/
structure GpuTimeline where
  duration : Int
  startTime : Int
deriving DecidableEq

/-- Modelled from the spec: `kFenceWaitStartDelayValidated`, one of the two
fixed pre-wait bookkeeping constants declared in the header (the header is not
part of the sources here); the spec fixes only that it is a constant selected
when validate was not skipped, so a representative nanosecond value is used. -/
def kFenceWaitStartDelayValidated : Int := 150000

/-- Modelled from the spec: `kFenceWaitStartDelaySkippedValidate`, the fixed
constant selected when validate was skipped; representative nanosecond value. -/
def kFenceWaitStartDelaySkippedValidate : Int := 250000

/-- `PowerAdvisor::DisplayTimingData::calculateDisplayTimeline` (PowerAdvisor.cpp). -/
def calculateDisplayTimeline (d : DisplayTimingData) (fenceTime : Int) : DisplayTimeline :=
  -- How long between calling hwc present and trying to wait on the fence
  let fenceWaitStartDelay : Int :=
    if d.skippedValidate then kFenceWaitStartDelaySkippedValidate
    else kFenceWaitStartDelayValidated
  -- Did our reference frame wait for an appropriate vsync before calling into hwc
  let waitedOnHwcPresentTime : Bool :=
    d.hwcPresentDelayedTime.isSome &&
      decide (d.hwcPresentStartTime.getD 0 < d.hwcPresentDelayedTime.getD 0) &&
      decide (d.hwcPresentDelayedTime.getD 0 < d.hwcPresentEndTime.getD 0)
  -- Use validate start/end here if we skipped it because we did validate + present together
  let hwcPresentStartTime : Int :=
    if d.skippedValidate then d.hwcValidateStartTime.getD 0 else d.hwcPresentStartTime.getD 0
  let hwcPresentEndTime : Int :=
    if d.skippedValidate then d.hwcValidateEndTime.getD 0 else d.hwcPresentEndTime.getD 0
  -- How long hwc present was delayed waiting for the next appropriate vsync
  let hwcPresentDelayDuration : Int :=
    if waitedOnHwcPresentTime then d.hwcPresentDelayedTime.getD 0 - d.hwcPresentStartTime.getD 0
    else 0
  -- When we started waiting for the present fence after calling into hwc present
  let presentFenceWaitStartTime : Int :=
    hwcPresentStartTime + hwcPresentDelayDuration + fenceWaitStartDelay
  let probablyWaitsForPresentFence : Bool :=
    decide (presentFenceWaitStartTime < fenceTime) && decide (fenceTime < hwcPresentEndTime)
  -- How long we ran after we finished waiting for the fence but before hwc present finished
  let postPresentFenceHwcPresentDuration : Int :=
    hwcPresentEndTime -
      (if probablyWaitsForPresentFence then fenceTime else presentFenceWaitStartTime)
  { hwcPresentStartTime := hwcPresentStartTime
    hwcPresentEndTime := hwcPresentEndTime
    hwcPresentDelayDuration := hwcPresentDelayDuration
    presentFenceWaitStartTime := presentFenceWaitStartTime
    probablyWaitsForPresentFence := probablyWaitsForPresentFence
    postPresentFenceHwcPresentDuration := postPresentFenceHwcPresentDuration }

/-- `PowerAdvisor::DisplayTimingData::estimateGpuTiming` (PowerAdvisor.cpp).
`now` stands for the `TimePoint::now()` read inside the function. -/
def estimateGpuTiming (d : DisplayTimingData) (now : Int) (previousEndTime : Option Int) :
    Option GpuTimeline :=
  if d.requiresRenderEngine && d.lastValidGpuStartTime.isSome && d.gpuEndFenceTime.isSome then
    let latestGpuStartTime : Int := max (previousEndTime.getD 0) (d.gpuStartTime.getD 0)
    let gpuDuration : Int :=
      match d.gpuEndFenceTime.getD .invalid with
      | .signaled ts =>
        -- If we know how long the most recent gpu duration was, use that
        ts - latestGpuStartTime
      | .pending =>
        -- If we don't have the fence data, use the most recent information we do have;
        -- if pending but went over the previous duration, use current time as the end
        if d.lastValidGpuEndTime.isSome then
          max (d.lastValidGpuEndTime.getD 0 - d.lastValidGpuStartTime.getD 0)
            (now - latestGpuStartTime)
        else 0
      | .invalid =>
        if d.lastValidGpuEndTime.isSome then
          d.lastValidGpuEndTime.getD 0 - d.lastValidGpuStartTime.getD 0
        else 0
    some { duration := gpuDuration, startTime := latestGpuStartTime }
  else none

/-- `PowerAdvisor::combineTimingEstimates` (PowerAdvisor.cpp). The member
reads `mTargetDuration` and `mTotalFrameTargetDuration` are passed explicitly.
`Int.div` is truncating division, as for the C++ signed 64-bit quotient. -/
def combineTimingEstimates (targetDuration : Int) (totalFrameTargetDuration : Option Int)
    (totalDuration flingerDuration : Int) : Int :=
  match totalFrameTargetDuration with
  | none => flingerDuration
  | some totalFrameTarget =>
    -- Normalize total to the flinger target (vsync period) since that's how often
    -- we actually send hints
    let normalizedTotalDuration : Int := Int.tdiv (targetDuration * totalDuration) totalFrameTarget
    max flingerDuration normalizedTotalDuration

/-! ## The per-display timing store

`mDisplayTimingData` is a map keyed by display id, mutated only from the
compositing thread. Following the spec's design note, it is modelled as an
explicit ordered association list: lookup by id, update-in-place, insert at
the end on first use (`operator[]` default-inserts). Iteration during the
cross-display compensation pass runs in the store's order. -/

abbrev TimingMap := List (DisplayId × DisplayTimingData)

/-- Lookup a display's timing record. -/
def lookupT : TimingMap → DisplayId → Option DisplayTimingData
  | [], _ => none
  | p :: rest, id => if p.1 = id then some p.2 else lookupT rest id

/-- `mDisplayTimingData[displayId]`: the record for a display, default if absent. -/
def getTiming (m : TimingMap) (id : DisplayId) : DisplayTimingData :=
  (lookupT m id).getD {}

/-- Write a display's record back: update in place, or append on first use. -/
def setTiming : TimingMap → DisplayId → DisplayTimingData → TimingMap
  | [], id, d => [(id, d)]
  | p :: rest, id, d => if p.1 = id then (id, d) :: rest else p :: setTiming rest id d

/-- The cross-display serialization-correction pass shared by `setGpuStartTime`
and `setGpuFenceTime`: find the first other display whose last-valid interval
straddles this display's (pre-update) gpu start time. `checkEndSet` is true for
the `setGpuStartTime` variant, which also checks `lastValidGpuEndTime.has_value()`
before comparing (the `setGpuFenceTime` variant dereferences it unchecked). -/
def findStraddling (m : TimingMap) (startRef : Int) (checkEndSet : Bool) :
    Option (DisplayId × DisplayTimingData) :=
  m.find? (fun p =>
    p.2.lastValidGpuStartTime.isSome &&
    (!checkEndSet || p.2.lastValidGpuEndTime.isSome) &&
    decide (p.2.lastValidGpuStartTime.getD 0 < startRef) &&
    decide (startRef < p.2.lastValidGpuEndTime.getD 0))

/-- `PowerAdvisor::setGpuStartTime` (PowerAdvisor.cpp), acting on the timing map.
If the recorded end fence has signaled, the last-valid pair is rolled over
(with the serialization correction reading the map after that rollover is
visible in it, as the C++ mutates the map entry through a reference); the
fence is then cleared and the new start time stored. -/
def setGpuStartTimeData (m : TimingMap) (id : DisplayId) (startTime : Int) : TimingMap :=
  let d0 := getTiming m id
  let d1 :=
    match d0.gpuEndFenceTime with
    | some (.signaled signalTime) =>
      let dv := { d0 with lastValidGpuStartTime := d0.gpuStartTime,
                          lastValidGpuEndTime := some signalTime }
      let mv := setTiming m id dv
      match findStraddling mv (d0.gpuStartTime.getD 0) true with
      | some p => { dv with lastValidGpuStartTime := some (p.2.lastValidGpuEndTime.getD 0) }
      | none => dv
    | _ => d0
  let d2 := if d0.gpuEndFenceTime.isSome then { d1 with gpuEndFenceTime := none } else d1
  setTiming m id { d2 with gpuStartTime := some startTime }

/-- `PowerAdvisor::setGpuFenceTime` (PowerAdvisor.cpp), acting on the timing map.
`fence` is the new end-fence poll state (`none` models a null pointer), `now`
the `TimePoint::now()` read on the legacy (non-`adpf_gpu_sf`) path, and
`adpfGpuSf` the cached `FlagManager` flag. -/
def setGpuFenceTimeData (adpfGpuSf : Bool) (m : TimingMap) (id : DisplayId)
    (fence : Option FenceSignal) (now : Int) : TimingMap :=
  let d0 := getTiming m id
  let d1 :=
    if d0.gpuEndFenceTime.isSome && !adpfGpuSf then
      match d0.gpuEndFenceTime with
      | some (.signaled signalTime) =>
        let dv := { d0 with lastValidGpuStartTime := d0.gpuStartTime,
                            lastValidGpuEndTime := some signalTime }
        let mv := setTiming m id dv
        -- If the previous display started before us but ended after we should have
        -- started, then it likely delayed our start time and we must compensate
        match findStraddling mv (d0.gpuStartTime.getD 0) false with
        | some p => { dv with lastValidGpuStartTime := some (p.2.lastValidGpuEndTime.getD 0) }
        | none => dv
      | _ => d0
    else d0
  let d2 := { d1 with gpuEndFenceTime := fence }
  let d3 := if !adpfGpuSf then { d2 with gpuStartTime := some now } else d2
  setTiming m id d3

/-! ## Ring buffers and the work-duration estimator -/

/-- Modelled from the spec: `RingBuffer<T,N>` lives in the header, which is not
among the sources; per the spec it is a fixed-capacity store whose append
overwrites the oldest slot once full, `isFull` holds once N elements have ever
been appended, and index 0 reads the logically oldest element. -/
structure RingBuffer where
  capacity : Nat
  samples : List Int := []
deriving DecidableEq

/-- Append a sample, overwriting the oldest once at capacity. -/
def RingBuffer.append (b : RingBuffer) (v : Int) : RingBuffer :=
  if b.samples.length < b.capacity then { b with samples := b.samples ++ [v] }
  else { b with samples := b.samples.tail ++ [v] }

/-- `isFull`: true once `capacity` elements have ever been appended. -/
def RingBuffer.isFull (b : RingBuffer) : Bool := decide (b.capacity ≤ b.samples.length)

/-- Read the oldest sample (`buffer[0]`); reading before any append is a
precondition violation in the spec, modelled by the 0 default. -/
def RingBuffer.get0 (b : RingBuffer) : Int := b.samples.headD 0

/-- Modelled from the spec: the ring buffers hold one slot per in-flight frame;
the header fixes the concrete capacity, so a representative value is used
(no claim depends on it). -/
def kRingBufferCapacity : Nat := 2

/-- `aidl::android::hardware::power::WorkDuration`, the estimator's output. -/
structure WorkDuration where
  timeStampNanos : Int
  durationNanos : Int
  workPeriodStartTimestampNanos : Int
  cpuDurationNanos : Int
  gpuDurationNanos : Int
deriving DecidableEq

/-- Process-wide configuration and cached property flags, modelled per the
spec's design note as one immutable value: the two `FlagManager` flags, the
`debug.adpf.use_report_actual_duration` property (`sUseReportActualDuration`)
and the `debug.sf.hint_margin_us` safety margin (`sTargetSafetyMargin`). -/
structure Config where
  adpfGpuSf : Bool := false
  adpfUseFmqChannel : Bool := true
  useReportActualDuration : Bool := true
  targetSafetyMargin : Int := 0
deriving DecidableEq

/-- Modelled from the spec: `kDefaultTargetDuration`, the initial value of
`mTargetDuration` and `mLastTargetDurationSent` in the header (not among the
sources); a representative one-frame nanosecond value. -/
def kDefaultTargetDuration : Int := 16666666

/-- The engine state: the `PowerAdvisor` members read or written by the
operations modelled here. Initial values follow default construction; where
the initializer lives in the header (not among the sources) the field doc of
`kDefaultTargetDuration` / `kRingBufferCapacity` applies. `hintSession` is
true when `mHintSession` is non-null. -/
structure State where
  bootFinished : Bool := false
  hintSessionEnabled : Option Bool := none
  supportsHintSession : Option Bool := none
  hintSession : Bool := false
  hintSessionThreadIds : List Int := []
  sessionConfigSupported : Bool := true
  firstConfigSupportCheck : Bool := true
  targetDuration : Int := kDefaultTargetDuration
  lastTargetDurationSent : Int := kDefaultTargetDuration
  hintSessionQueue : List WorkDuration := []
  totalFrameTargetDuration : Option Int := none
  displayTimingData : TimingMap := []
  displayIds : List DisplayId := []
  expectedPresentTimes : RingBuffer := { capacity := kRingBufferCapacity }
  commitStartTimes : RingBuffer := { capacity := kRingBufferCapacity }
  lastPresentFenceTime : Int := 0
  lastSfPresentEndTime : Int := 0
  frameDelayDuration : Int := 0
  lastPostcompDuration : Int := 0
deriving DecidableEq

/-- `PowerAdvisor::getOrderedDisplayIds` needs a sort; insertion sort by a key,
standing in for `std::sort` (tie order among equal keys is unspecified there). -/
def insertSorted (key : DisplayId → Int) (id : DisplayId) : List DisplayId → List DisplayId
  | [] => [id]
  | x :: xs => if key id < key x then id :: x :: xs else x :: insertSorted key id xs

/-- Sort display ids ascending by a key. -/
def sortByKey (key : DisplayId → Int) (l : List DisplayId) : List DisplayId :=
  l.foldr (insertSorted key) []

/-- `PowerAdvisor::getOrderedDisplayIds` (PowerAdvisor.cpp) for the one sort key
used by the estimator, `DisplayTimingData::hwcPresentStartTime`: keep the ids
with a timing record whose key is set, sorted by that key. -/
def orderedDisplayIds (s : State) : List DisplayId :=
  let filtered := s.displayIds.filter (fun id =>
    (lookupT s.displayTimingData id).isSome &&
      (getTiming s.displayTimingData id).hwcPresentStartTime.isSome)
  sortByKey (fun id => (getTiming s.displayTimingData id).hwcPresentStartTime.getD 0) filtered

/-- The running accumulator of `estimateWorkDuration`'s loop over displays. -/
structure WalkAcc where
  estimatedHwcEndTime : Int
  idleDuration : Int
  previousValidGpuEndTime : Option Int
  estimatedGpuEndTime : Option Int
  firstGpuTimeline : Option GpuTimeline
deriving DecidableEq

/-- One iteration of the display loop in `PowerAdvisor::estimateWorkDuration`. -/
def walkStep (fenceTime now : Int) (acc : WalkAcc) (d : DisplayTimingData) : WalkAcc :=
  let displayTiming := calculateDisplayTimeline d fenceTime
  -- Update predicted present finish time with this display's present time
  let acc := { acc with estimatedHwcEndTime := displayTiming.hwcPresentEndTime }
  -- Track how long we spent waiting for the fence and waiting to present,
  -- can be excluded from the timing estimate
  let acc := { acc with idleDuration := acc.idleDuration +
    (if displayTiming.probablyWaitsForPresentFence then
        fenceTime - displayTiming.presentFenceWaitStartTime
      else 0) +
    displayTiming.hwcPresentDelayDuration }
  -- Estimate the reference frame's gpu timing
  match estimateGpuTiming d now acc.previousValidGpuEndTime with
  | some gpuTiming =>
    let first := if acc.firstGpuTimeline.isSome then acc.firstGpuTimeline else some gpuTiming
    { acc with
      firstGpuTimeline := first
      previousValidGpuEndTime := some (gpuTiming.startTime + gpuTiming.duration)
      -- Estimate the prediction frame's gpu end time from the reference frame
      estimatedGpuEndTime := some (max displayTiming.hwcPresentStartTime
        (acc.estimatedGpuEndTime.getD 0) + gpuTiming.duration) }
  | none => acc

/-- The display loop of `PowerAdvisor::estimateWorkDuration`: walk the ordered
ids, skipping ids with no timing record (`count(displayId) == 0`). -/
def walkDisplays (m : TimingMap) (fenceTime now : Int) (ids : List DisplayId)
    (init : WalkAcc) : WalkAcc :=
  ids.foldl (fun acc id =>
    match lookupT m id with
    | some d => walkStep fenceTime now acc d
    | none => acc) init

/-- `PowerAdvisor::estimateWorkDuration` (PowerAdvisor.cpp). `now` stands for
the `TimePoint::now()` reads inside the call. -/
def estimateWorkDuration (cfg : Config) (s : State) (now : Int) : Option WorkDuration :=
  if !(s.expectedPresentTimes.isFull && s.commitStartTimes.isFull) then none
  else
    let ids := orderedDisplayIds s
    let acc := walkDisplays s.displayTimingData s.lastPresentFenceTime now ids
      { estimatedHwcEndTime := s.commitStartTimes.get0
        idleDuration := 0
        previousValidGpuEndTime := none
        estimatedGpuEndTime := none
        firstGpuTimeline := none }
    -- Don't count time spent idly waiting in the estimate
    let estimatedHwcEndTime := acc.estimatedHwcEndTime - acc.idleDuration
    let estimatedFlingerEndTime := s.lastSfPresentEndTime - acc.idleDuration
    -- We finish the frame when both present and the gpu are done
    let totalDuration := s.frameDelayDuration +
      max estimatedHwcEndTime (acc.estimatedGpuEndTime.getD 0) - s.commitStartTimes.get0
    let totalDurationWithoutGpu :=
      s.frameDelayDuration + estimatedHwcEndTime - s.commitStartTimes.get0
    -- We finish SurfaceFlinger when post-composition finishes
    let flingerDuration :=
      estimatedFlingerEndTime + s.lastPostcompDuration - s.commitStartTimes.get0
    let estimatedGpuDuration :=
      match acc.firstGpuTimeline with
      | some g => acc.estimatedGpuEndTime.getD 0 - g.startTime
      | none => 0
    -- Combine the two timings into a single normalized one
    let combinedDuration := combineTimingEstimates s.targetDuration
      s.totalFrameTargetDuration totalDuration flingerDuration
    let cpuDuration := combineTimingEstimates s.targetDuration
      s.totalFrameTargetDuration totalDurationWithoutGpu flingerDuration
    some { timeStampNanos := now
           durationNanos := combinedDuration
           workPeriodStartTimestampNanos := s.commitStartTimes.get0
           cpuDurationNanos := if cfg.adpfGpuSf then cpuDuration else 0
           gpuDurationNanos := if cfg.adpfGpuSf then estimatedGpuDuration else 0 }

/-! ## The hint-session state machine

The calls into the power-management service are the abstract contract of the
spec's §6; each operation that may consult the service carries the responses
the service would give if asked (`SessionResponses`), and every call actually
made is emitted as a `ServiceCall` event. -/

/-- Result of a power-service call: `isOk`, plain failure, or unsupported. -/
inductive HalResult where
  | ok
  | failed
  | unsupported
deriving DecidableEq

/-- The environment's answers for one engine operation: the support probe
(`getHintSessionPreferredRate().isOk()`), the two creation paths, and the
one post-creation call the operation may make (`sendHint`,
`updateTargetWorkDuration` or `reportActualWorkDuration`). -/
structure SessionResponses where
  preferredRateOk : Bool := true
  configRes : HalResult := .ok
  legacyRes : HalResult := .ok
  callRes : HalResult := .ok
deriving DecidableEq

/-- Session-hint kind for `SessionHint::CPU_LOAD_UP` (external enum). -/
def kCpuLoadUp : Nat := 0

/-- A call issued to the power-management service. -/
inductive ServiceCall where
  | getPreferredRate
  | createWithConfig (threadIds : List Int) (target : Int)
  | createLegacy (threadIds : List Int) (target : Int)
  | updateTarget (target : Int)
  | sendHintCall (hint : Nat)
  | reportActual (durations : List WorkDuration)
deriving DecidableEq

/-- Result triple of the stateful helpers: new state, calls issued, and the
C++ return value. -/
structure SessionStep where
  state : State
  calls : List ServiceCall
  result : Bool
deriving DecidableEq

/-- `PowerAdvisor::supportsPowerHintSession` (PowerAdvisor.cpp): the support
probe, consulted once and cached in `mSupportsHintSession`. -/
def supportsPowerHintSessionStep (s : State) (probe : Bool) : SessionStep :=
  match s.supportsHintSession with
  | some b => { state := s, calls := [], result := b }
  | none => { state := { s with supportsHintSession := some probe },
              calls := [.getPreferredRate], result := probe }

/-- `PowerAdvisor::usePowerHintSession` (PowerAdvisor.cpp):
`mHintSessionEnabled.value_or(false) && supportsPowerHintSession()`, with the
C++ short-circuit (the probe is not consulted while the feature is disabled). -/
def usePowerHintSessionStep (s : State) (probe : Bool) : SessionStep :=
  if s.hintSessionEnabled.getD false then supportsPowerHintSessionStep s probe
  else { state := s, calls := [], result := false }

/-- `PowerAdvisor::shouldCreateSessionWithConfig` (PowerAdvisor.cpp). -/
def shouldCreateSessionWithConfig (cfg : Config) (s : State) : Bool :=
  s.sessionConfigSupported && cfg.adpfUseFmqChannel

/-- The config-path creation attempt in `ensurePowerHintSessionRunning`,
reached when `shouldCreateSessionWithConfig` held: issue
`createHintSessionWithConfig`; on success hold the session; if it fails the
first time we try, or ever returns unsupported, assume unsupported. -/
def createWithConfigAttempt (s : State) (res : HalResult) : State × List ServiceCall :=
  let ev := [ServiceCall.createWithConfig s.hintSessionThreadIds s.targetDuration]
  match res with
  | .ok => ({ s with hintSession := true, firstConfigSupportCheck := false }, ev)
  | res =>
    let s2 := if s.firstConfigSupportCheck || res == .unsupported then
        { s with sessionConfigSupported := false }
      else s
    ({ s2 with firstConfigSupportCheck := false }, ev)

/-- The legacy creation attempt in `ensurePowerHintSessionRunning`: issue
`createHintSession`; on success hold the session. -/
def createLegacyAttempt (s : State) (res : HalResult) : State × List ServiceCall :=
  let ev := [ServiceCall.createLegacy s.hintSessionThreadIds s.targetDuration]
  match res with
  | .ok => ({ s with hintSession := true }, ev)
  | _ => (s, ev)

/-- `PowerAdvisor::ensurePowerHintSessionRunning` (PowerAdvisor.cpp). The
left-to-right short-circuit of the entry guard is kept: the thread-id check
runs only when no session is held, and the (probing) `usePowerHintSession`
call only after that. The legacy path is tried immediately after, in case the
config path returned unsupported. Returns `mHintSession != nullptr`. -/
def ensurePowerHintSessionRunning (cfg : Config) (s : State) (r : SessionResponses) :
    SessionStep :=
  if s.hintSession then { state := s, calls := [], result := true }
  else if s.hintSessionThreadIds.isEmpty then { state := s, calls := [], result := false }
  else
    let u := usePowerHintSessionStep s r.preferredRateOk
    if !u.result then { state := u.state, calls := u.calls, result := false }
    else
      let c := if shouldCreateSessionWithConfig cfg u.state then
          createWithConfigAttempt u.state r.configRes
        else (u.state, [])
      if !c.1.hintSession && !shouldCreateSessionWithConfig cfg c.1 then
        let l := createLegacyAttempt c.1 r.legacyRes
        { state := l.1, calls := u.calls ++ c.2 ++ l.2, result := l.1.hintSession }
      else { state := c.1, calls := u.calls ++ c.2, result := c.1.hintSession }

/-- The engine operations modelled from PowerAdvisor.cpp. Operations that may
reach the service carry the environment's responses. -/
inductive Op where
  | onBootFinished
  | enablePowerHintSession (enabled : Bool)
  | startPowerHintSession (threadIds : List Int) (r : SessionResponses)
  | updateTargetWorkDuration (target : Int) (r : SessionResponses)
  | notifyCpuLoadUp (r : SessionResponses)
  | reportActualWorkDuration (now : Int) (r : SessionResponses)
  | setGpuStartTime (id : DisplayId) (t : Int)
  | setGpuFenceTime (id : DisplayId) (fence : Option FenceSignal) (now : Int)
  | setHwcValidateTiming (id : DisplayId) (validateStart validateEnd : Int)
  | setHwcPresentTiming (id : DisplayId) (presentStart presentEnd : Int)
  | setSkippedValidate (id : DisplayId) (skipped : Bool)
  | setRequiresRenderEngine (id : DisplayId) (required : Bool)
  | setExpectedPresentTime (t : Int)
  | setSfPresentTiming (fenceTime presentEnd : Int)
  | setFrameDelay (d : Int)
  | setHwcPresentDelayedTime (id : DisplayId) (t : Int)
  | setCommitStart (t : Int)
  | setCompositeEnd (t : Int)
  | setDisplays (ids : List DisplayId)
  | setTotalFrameTargetWorkDuration (d : Int)
deriving DecidableEq

/-- One engine operation, as the corresponding `PowerAdvisor` member function.
Returns the next state and the service calls issued. -/
def step (cfg : Config) (s : State) (op : Op) : State × List ServiceCall :=
  match op with
  | .onBootFinished => ({ s with bootFinished := true }, [])
  | .enablePowerHintSession enabled => ({ s with hintSessionEnabled := some enabled }, [])
  | .startPowerHintSession threadIds r =>
    -- `mHintSessionThreadIds = threadIds` happens before the boot check
    let s := { s with hintSessionThreadIds := threadIds }
    if !s.bootFinished then (s, [])
    else
      let u := usePowerHintSessionStep s r.preferredRateOk
      if !u.result then (u.state, u.calls)
      else if u.state.hintSessionThreadIds.isEmpty then
        -- LOG_ALWAYS_FATAL_IF: fatal programmer error, the process aborts
        (u.state, u.calls)
      else if u.state.hintSession then (u.state, u.calls)
      else
        let e := ensurePowerHintSessionRunning cfg u.state r
        (e.state, u.calls ++ e.calls)
  | .updateTargetWorkDuration target r =>
    let u := usePowerHintSessionStep s r.preferredRateOk
    if !u.result then (u.state, u.calls)
    else if target == u.state.lastTargetDurationSent then
      ({ u.state with targetDuration := target }, u.calls)
    else
      let e := ensurePowerHintSessionRunning cfg
        { u.state with targetDuration := target } r
      if e.result then
        let s2 := { e.state with lastTargetDurationSent := target }
        let calls := u.calls ++ e.calls ++ [.updateTarget target]
        if r.callRes == .ok then (s2, calls)
        else ({ s2 with hintSession := false }, calls)
      else (e.state, u.calls ++ e.calls)
  | .notifyCpuLoadUp r =>
    if !s.bootFinished then (s, [])
    else
      let u := usePowerHintSessionStep s r.preferredRateOk
      if !u.result then (u.state, u.calls)
      else
        let e := ensurePowerHintSessionRunning cfg u.state r
        if e.result then
          let calls := u.calls ++ e.calls ++ [.sendHintCall kCpuLoadUp]
          if r.callRes == .ok then (e.state, calls)
          else ({ e.state with hintSession := false }, calls)
        else (e.state, u.calls ++ e.calls)
  | .reportActualWorkDuration now r =>
    if !s.bootFinished || !cfg.useReportActualDuration then (s, [])
    else
      let u := usePowerHintSessionStep s r.preferredRateOk
      if !u.result then (u.state, u.calls)
      else
        let s1 := u.state
        match estimateWorkDuration cfg s1 now with
        | none => (s1, u.calls)
        | some actual =>
          if actual.durationNanos < 0 then (s1, u.calls)
          else
            let actual := { actual with
              durationNanos := actual.durationNanos + cfg.targetSafetyMargin }
            let e := ensurePowerHintSessionRunning cfg s1 r
            if !e.result then (e.state, u.calls ++ e.calls)
            else
              let queue := e.state.hintSessionQueue ++ [actual]
              let calls := u.calls ++ e.calls ++ [.reportActual queue]
              if r.callRes == .ok then
                ({ e.state with hintSessionQueue := [] }, calls)
              else
                ({ e.state with hintSessionQueue := queue, hintSession := false }, calls)
  | .setGpuStartTime id t =>
    ({ s with displayTimingData := setGpuStartTimeData s.displayTimingData id t }, [])
  | .setGpuFenceTime id fence now =>
    ({ s with displayTimingData :=
        setGpuFenceTimeData cfg.adpfGpuSf s.displayTimingData id fence now }, [])
  | .setHwcValidateTiming id validateStart validateEnd =>
    let d := getTiming s.displayTimingData id
    let d := { d with hwcValidateStartTime := some validateStart,
                      hwcValidateEndTime := some validateEnd }
    ({ s with displayTimingData := setTiming s.displayTimingData id d }, [])
  | .setHwcPresentTiming id presentStart presentEnd =>
    let d := getTiming s.displayTimingData id
    let d := { d with hwcPresentStartTime := some presentStart,
                      hwcPresentEndTime := some presentEnd }
    ({ s with displayTimingData := setTiming s.displayTimingData id d }, [])
  | .setSkippedValidate id skipped =>
    let d := getTiming s.displayTimingData id
    let d := { d with skippedValidate := skipped }
    ({ s with displayTimingData := setTiming s.displayTimingData id d }, [])
  | .setRequiresRenderEngine id required =>
    let d := getTiming s.displayTimingData id
    let d := { d with requiresRenderEngine := required }
    ({ s with displayTimingData := setTiming s.displayTimingData id d }, [])
  | .setExpectedPresentTime t =>
    ({ s with expectedPresentTimes := s.expectedPresentTimes.append t }, [])
  | .setSfPresentTiming fenceTime presentEnd =>
    ({ s with lastPresentFenceTime := fenceTime, lastSfPresentEndTime := presentEnd }, [])
  | .setFrameDelay d => ({ s with frameDelayDuration := d }, [])
  | .setHwcPresentDelayedTime id t =>
    let d := getTiming s.displayTimingData id
    let d := { d with hwcPresentDelayedTime := some t }
    ({ s with displayTimingData := setTiming s.displayTimingData id d }, [])
  | .setCommitStart t => ({ s with commitStartTimes := s.commitStartTimes.append t }, [])
  | .setCompositeEnd t =>
    ({ s with lastPostcompDuration := t - s.lastSfPresentEndTime }, [])
  | .setDisplays ids => ({ s with displayIds := ids }, [])
  | .setTotalFrameTargetWorkDuration d =>
    ({ s with totalFrameTargetDuration := some d }, [])

/-- Run a sequence of operations, collecting all service calls issued. -/
def runTrace (cfg : Config) (s : State) (ops : List Op) : State × List ServiceCall :=
  match ops with
  | [] => (s, [])
  | op :: rest =>
    let x := step cfg s op
    let y := runTrace cfg x.1 rest
    (y.1, x.2 ++ y.2)

/-! ## Predicates over service-call events -/

/-- A session-creation call (either path) carries a nonempty thread-id list. -/
def creationOk : ServiceCall → Bool
  | .createWithConfig threadIds _ => !threadIds.isEmpty
  | .createLegacy threadIds _ => !threadIds.isEmpty
  | _ => true

/-- Every session-creation call in the list carries a nonempty thread-id list. -/
def goodCreations (l : List ServiceCall) : Bool := l.all creationOk

/-- Is this a `createHintSessionWithConfig` call? -/
def isConfigCreate : ServiceCall → Bool
  | .createWithConfig _ _ => true
  | _ => false

/-- No `createHintSessionWithConfig` call occurs in the list. -/
def noConfigCreate (l : List ServiceCall) : Bool := l.all (fun e => !isConfigCreate e)

/-- Some `createHintSessionWithConfig` call occurs in the list. -/
def hasConfigCreate (l : List ServiceCall) : Bool := l.any isConfigCreate

/-- Count the `updateTargetWorkDuration` calls in the list. -/
def countUpdateTarget (l : List ServiceCall) : Nat :=
  l.countP (fun e => match e with | .updateTarget _ => true | _ => false)

/-- The service responses carried by an operation, when it has any. -/
def opResponses : Op → Option SessionResponses
  | .startPowerHintSession _ r => some r
  | .updateTargetWorkDuration _ r => some r
  | .notifyCpuLoadUp r => some r
  | .reportActualWorkDuration _ r => some r
  | _ => none

/-- Has the record's GPU end fence actually signaled (neither absent, pending
nor invalid)? -/
def fenceSignaled : Option FenceSignal → Bool
  | some (.signaled _) => true
  | _ => false

/-! ## Concrete inputs used by the claim witnesses and counterexamples -/

/-- Display record refuting C2 as stated: requires render engine, has a
recorded (current-frame) GPU start time and a set end fence. -/
def c2Display : DisplayTimingData :=
  { requiresRenderEngine := true
    gpuStartTime := some 100
    gpuEndFenceTime := some (.signaled 200) }

/-- The single display record of the C3 amended witness. -/
def c3LastDisplay : DisplayTimingData :=
  { hwcPresentStartTime := some 1, hwcPresentEndTime := some 42 }

/-- First display of the C3 counterexample: presents first (start 0) but
finishes last (end 100). -/
def c3Display1 : DisplayTimingData :=
  { hwcPresentStartTime := some 0, hwcPresentEndTime := some 100 }

/-- Second display of the C3 counterexample: presents second (start 10) and
finishes earlier (end 50). -/
def c3Display2 : DisplayTimingData :=
  { hwcPresentStartTime := some 10, hwcPresentEndTime := some 50 }

/-- C3 counterexample state: two active displays with full sample buffers. -/
def c3State : State :=
  { displayIds := [1, 2]
    displayTimingData := [(1, c3Display1), (2, c3Display2)]
    commitStartTimes := { capacity := 1, samples := [0] }
    expectedPresentTimes := { capacity := 1, samples := [0] } }

/-- The walk accumulator as `estimateWorkDuration` initializes it on `c3State`. -/
def c3InitAcc : WalkAcc :=
  { estimatedHwcEndTime := c3State.commitStartTimes.get0
    idleDuration := 0
    previousValidGpuEndTime := none
    estimatedGpuEndTime := none
    firstGpuTimeline := none }

/-- Configuration of the C1 counterexample (all defaults). -/
def c1Cfg : Config := {}

/-- Operation sequence of the C1 counterexample: thread ids are registered by a
pre-boot `startPowerHintSession` (which stores them before its boot check and
then bails out), the session is enabled, and `updateTargetWorkDuration` is
called — all without `onBootFinished` ever having run. -/
def c1Ops : List Op :=
  [.startPowerHintSession [42] {},
   .enablePowerHintSession true,
   .updateTargetWorkDuration 100 {}]

/-- Service responses of the C7 witness: config creation reports unsupported. -/
def c7Responses : SessionResponses := { configRes := .unsupported }

/-- State of the C7 witness: enabled, supported, thread ids registered. -/
def c7State : State :=
  { hintSessionEnabled := some true
    supportsHintSession := some true
    hintSessionThreadIds := [42] }

/-- First operation of the C7 witness: a target update that triggers a
config-path creation attempt answered "unsupported". -/
def c7Op : Op := .updateTargetWorkDuration 100 c7Responses

/-- Subsequent operations of the C7 witness. -/
def c7Rest : List Op := [.updateTargetWorkDuration 200 {}]

/-- Display record of the C9 witness: pending end fence, last-valid pair set. -/
def c9Display : DisplayTimingData :=
  { gpuEndFenceTime := some .pending
    lastValidGpuStartTime := some 5
    lastValidGpuEndTime := some 9 }

/-- Engine state of the C9 witness. -/
def c9State : State := { displayTimingData := [(3, c9Display)] }

/-- State of the C8 witness: enabled, supported, session running. -/
def c8State : State :=
  { hintSessionEnabled := some true
    supportsHintSession := some true
    hintSession := true }

/-- State of the C10 witness: enabled, supported, session running. -/
def c10State : State :=
  { hintSessionEnabled := some true
    supportsHintSession := some true
    hintSession := true }

/-! ## Basic lemmas about the timing store -/

theorem getTiming_setTiming (m : TimingMap) (tid id : DisplayId) (d : DisplayTimingData) :
    getTiming (setTiming m tid d) id = if tid = id then d else getTiming m id := by
  induction m with
  | nil =>
    by_cases h : tid = id <;> simp [setTiming, getTiming, lookupT, h]
  | cons p rest ih =>
    by_cases hp : p.1 = tid
    · subst hp
      by_cases h : p.1 = id <;> simp [setTiming, getTiming, lookupT, h]
    · by_cases h : p.1 = id
      · have htid : ¬ tid = id := by
          intro e; exact hp (by rw [h, e])
        have htid2 : ¬ id = tid := fun e => htid e.symm
        simp [setTiming, getTiming, lookupT, hp, h, htid, htid2]
      · simp only [setTiming, getTiming] at ih ⊢
        simp [lookupT, hp, h, ih]

/-! ## C2: when `estimateGpuTiming` yields a value -/

/-- C2 (amended): `estimateGpuTiming` yields a GPU timing value if and only if
the display requires render-engine usage, has a *last-valid* GPU start time
recorded, and has its GPU end fence set; in every other case it yields none. -/
theorem estimateGpuTiming_some_iff (d : DisplayTimingData) (now : Int) (prev : Option Int) :
    (estimateGpuTiming d now prev).isSome =
      (d.requiresRenderEngine && d.lastValidGpuStartTime.isSome &&
        d.gpuEndFenceTime.isSome) := by
  unfold estimateGpuTiming
  split <;> simp_all

/-- C2 counterexample: on `c2Display` the display requires render-engine usage,
has a recorded GPU start time and has its GPU end fence set, yet
`estimateGpuTiming` yields no GPU timing (the code's guard tests the
last-valid GPU start time, which is unset here), refuting the claimed "if and
only if". -/
theorem estimateGpuTiming_some_iff_cex :
    ¬ (((estimateGpuTiming c2Display 0 none).isSome = true) ↔
        (c2Display.requiresRenderEngine = true ∧ c2Display.gpuStartTime.isSome = true ∧
          c2Display.gpuEndFenceTime.isSome = true)) := by
  decide

/-! ## C4: combineTimingEstimates -/

/-- C4: with no total-frame target configured, `combineTimingEstimates` returns
the compositor-only (flinger) duration exactly; otherwise it returns the
maximum of the flinger duration and the normalized total duration
`target * total / totalFrameTarget` in exact (truncating) integer arithmetic. -/
theorem combineTimingEstimates_spec (targetDuration : Int) (tft : Option Int)
    (total flinger : Int) :
    (tft = none → combineTimingEstimates targetDuration tft total flinger = flinger) ∧
    (∀ t, tft = some t →
      combineTimingEstimates targetDuration tft total flinger =
        max flinger (Int.tdiv (targetDuration * total) t)) := by
  constructor
  · intro h; subst h; rfl
  · intro t h; subst h; rfl

/-- C4 witness: both branches of `combineTimingEstimates_spec` at concrete
inputs. -/
theorem combineTimingEstimates_spec_witness :
    combineTimingEstimates 5 none 7 9 = 9 ∧
    combineTimingEstimates 5 (some 4) 7 9 = max 9 (Int.tdiv (5 * 7) 4) :=
  ⟨(combineTimingEstimates_spec 5 none 7 9).1 rfl,
   (combineTimingEstimates_spec 5 (some 4) 7 9).2 4 rfl⟩

/-! ## C5: pending-fence GPU estimate -/

/-- C5: if the display's GPU end fence is still pending and a previous frame's
valid GPU start/end pair `(s, e)` exists, `estimateGpuTiming previousEndTime`
returns duration `max (e - s) (now - effectiveStart)` with
`effectiveStart = max previousEndTime gpuStart`; hence the estimate is never
less than the previous frame's valid duration. -/
theorem estimateGpuTiming_pending (d : DisplayTimingData) (now p g vs ve : Int)
    (hr : d.requiresRenderEngine = true)
    (hf : d.gpuEndFenceTime = some .pending)
    (hs : d.lastValidGpuStartTime = some vs)
    (he : d.lastValidGpuEndTime = some ve)
    (hg : d.gpuStartTime = some g) :
    estimateGpuTiming d now (some p) =
      some { duration := max (ve - vs) (now - max p g), startTime := max p g } ∧
    ve - vs ≤ max (ve - vs) (now - max p g) := by
  refine ⟨?_, le_max_left _ _⟩
  unfold estimateGpuTiming
  simp [hr, hf, hs, he, hg]

/-- C5 witness: a concrete pending-fence display with last valid pair
(1000, 6000); with `now - effectiveStart = 7000` exceeding the 5000 fallback,
the estimate widens to 7000. -/
theorem estimateGpuTiming_pending_witness :
    estimateGpuTiming
        { requiresRenderEngine := true
          gpuEndFenceTime := some .pending
          lastValidGpuStartTime := some 1000
          lastValidGpuEndTime := some 6000
          gpuStartTime := some 2000 } 9000 (some 1500) =
      some { duration := max ((6000:Int) - 1000) (9000 - max 1500 2000),
             startTime := max 1500 2000 } :=
  (estimateGpuTiming_pending
    { requiresRenderEngine := true
      gpuEndFenceTime := some .pending
      lastValidGpuStartTime := some 1000
      lastValidGpuEndTime := some 6000
      gpuStartTime := some 2000 } 9000 1500 2000 1000 6000
    rfl rfl rfl rfl rfl).1

/-! ## C6: the present-fence wait heuristic -/

/-- C6: `calculateDisplayTimeline` sets `probablyWaitsForPresentFence` true iff
the fence time lies strictly between `presentFenceWaitStartTime` and the
present end time, where `presentFenceWaitStartTime` is present start plus the
present-delay duration plus the fixed constant selected by the skip-validate
flag. -/
theorem calculateDisplayTimeline_waits_iff (d : DisplayTimingData) (fenceTime : Int) :
    (calculateDisplayTimeline d fenceTime).presentFenceWaitStartTime =
      (calculateDisplayTimeline d fenceTime).hwcPresentStartTime +
        (calculateDisplayTimeline d fenceTime).hwcPresentDelayDuration +
        (if d.skippedValidate then kFenceWaitStartDelaySkippedValidate
          else kFenceWaitStartDelayValidated) ∧
    ((calculateDisplayTimeline d fenceTime).probablyWaitsForPresentFence = true ↔
      ((calculateDisplayTimeline d fenceTime).presentFenceWaitStartTime < fenceTime ∧
        fenceTime < (calculateDisplayTimeline d fenceTime).hwcPresentEndTime)) := by
  unfold calculateDisplayTimeline
  constructor
  · rfl
  · simp

/-! ## C3: what the display walk accumulates as the hwc end time -/

theorem walkStep_hwcEnd (fenceTime now : Int) (acc : WalkAcc) (d : DisplayTimingData) :
    (walkStep fenceTime now acc d).estimatedHwcEndTime =
      (calculateDisplayTimeline d fenceTime).hwcPresentEndTime := by
  cases hE : estimateGpuTiming d now acc.previousValidGpuEndTime <;> simp [walkStep, hE]

/-- C3 (amended): the hwc-composition end time accumulated by
`estimateWorkDuration`'s display walk is *assigned*, not maximized: after the
walk it equals the predicted hwc present end time of the last display walked
(the display latest in present-start order), which need not be the maximum
over all walked displays. -/
theorem walkDisplays_hwcEnd_last (m : TimingMap) (fenceTime now : Int)
    (ids : List DisplayId) (d : DisplayId) (data : DisplayTimingData) (init : WalkAcc)
    (h : lookupT m d = some data) :
    (walkDisplays m fenceTime now (ids ++ [d]) init).estimatedHwcEndTime =
      (calculateDisplayTimeline data fenceTime).hwcPresentEndTime := by
  unfold walkDisplays
  rw [List.foldl_append]
  simp [h, walkStep_hwcEnd]

/-- C3 amended witness: one display with a timing record; the walk's hwc end
time is that display's predicted present end. -/
theorem walkDisplays_hwcEnd_last_witness :
    lookupT [(7, c3LastDisplay)] 7 = some c3LastDisplay ∧
    (walkDisplays [(7, c3LastDisplay)] 0 0 ([] ++ [7])
        { estimatedHwcEndTime := 0, idleDuration := 0, previousValidGpuEndTime := none,
          estimatedGpuEndTime := none, firstGpuTimeline := none }).estimatedHwcEndTime =
      (calculateDisplayTimeline c3LastDisplay 0).hwcPresentEndTime :=
  ⟨by decide, walkDisplays_hwcEnd_last _ 0 0 [] 7 _ _ (by decide)⟩

/-- C3 counterexample: walking `c3State`'s displays in present-start order
(display 1 then display 2), the accumulated hwc end time is 50 — display 2's
end — although walked display 1's predicted hwc present end time is 100, so
the accumulated value is not the maximum over all walked displays. -/
theorem walkDisplays_hwcEnd_cex :
    orderedDisplayIds c3State = [1, 2] ∧
    (walkDisplays c3State.displayTimingData c3State.lastPresentFenceTime 0
        (orderedDisplayIds c3State) c3InitAcc).estimatedHwcEndTime = 50 ∧
    (calculateDisplayTimeline c3Display1 c3State.lastPresentFenceTime).hwcPresentEndTime
      = 100 := by
  decide

/-! ## Lemmas about the session helpers -/

theorem useStep_preserve (s : State) (b : Bool) :
    (usePowerHintSessionStep s b).state.displayTimingData = s.displayTimingData ∧
    (usePowerHintSessionStep s b).state.sessionConfigSupported = s.sessionConfigSupported ∧
    (usePowerHintSessionStep s b).state.firstConfigSupportCheck = s.firstConfigSupportCheck ∧
    (usePowerHintSessionStep s b).state.hintSession = s.hintSession ∧
    (usePowerHintSessionStep s b).state.hintSessionThreadIds = s.hintSessionThreadIds ∧
    (usePowerHintSessionStep s b).state.targetDuration = s.targetDuration ∧
    (usePowerHintSessionStep s b).state.lastTargetDurationSent = s.lastTargetDurationSent ∧
    (usePowerHintSessionStep s b).state.hintSessionQueue = s.hintSessionQueue ∧
    (usePowerHintSessionStep s b).state.bootFinished = s.bootFinished := by
  unfold usePowerHintSessionStep supportsPowerHintSessionStep
  cases h : s.hintSessionEnabled.getD false <;> cases hs : s.supportsHintSession <;>
    simp [h, hs]

theorem useStep_calls (s : State) (b : Bool) :
    (usePowerHintSessionStep s b).calls = [] ∨
    (usePowerHintSessionStep s b).calls = [ServiceCall.getPreferredRate] := by
  unfold usePowerHintSessionStep supportsPowerHintSessionStep
  cases h : s.hintSessionEnabled.getD false <;> cases hs : s.supportsHintSession <;>
    simp [h, hs]

theorem goodCreations_append (a b : List ServiceCall) :
    goodCreations (a ++ b) = (goodCreations a && goodCreations b) := by
  simp [goodCreations, List.all_append]

theorem noConfigCreate_append (a b : List ServiceCall) :
    noConfigCreate (a ++ b) = (noConfigCreate a && noConfigCreate b) := by
  simp [noConfigCreate, List.all_append]

theorem hasConfigCreate_append (a b : List ServiceCall) :
    hasConfigCreate (a ++ b) = (hasConfigCreate a || hasConfigCreate b) := by
  simp [hasConfigCreate, List.any_append]

theorem hasConfigCreate_singleton (e : ServiceCall) :
    hasConfigCreate [e] = isConfigCreate e := by
  simp [hasConfigCreate]

theorem useStep_calls_good (s : State) (b : Bool) :
    goodCreations (usePowerHintSessionStep s b).calls = true ∧
    noConfigCreate (usePowerHintSessionStep s b).calls = true := by
  rcases useStep_calls s b with h | h <;>
    simp [h, goodCreations, noConfigCreate, creationOk, isConfigCreate]

theorem useStep_noConfig (s : State) (b : Bool) :
    hasConfigCreate (usePowerHintSessionStep s b).calls = false := by
  rcases useStep_calls s b with h | h <;> simp [h, hasConfigCreate, isConfigCreate]

theorem configAttempt_preserve (s : State) (res : HalResult) :
    (createWithConfigAttempt s res).1.displayTimingData = s.displayTimingData ∧
    (createWithConfigAttempt s res).1.hintSessionQueue = s.hintSessionQueue ∧
    (createWithConfigAttempt s res).1.targetDuration = s.targetDuration ∧
    (createWithConfigAttempt s res).1.lastTargetDurationSent = s.lastTargetDurationSent ∧
    (createWithConfigAttempt s res).1.hintSessionThreadIds = s.hintSessionThreadIds ∧
    (createWithConfigAttempt s res).1.bootFinished = s.bootFinished ∧
    (createWithConfigAttempt s res).1.hintSessionEnabled = s.hintSessionEnabled ∧
    (createWithConfigAttempt s res).1.supportsHintSession = s.supportsHintSession := by
  cases res
  · simp [createWithConfigAttempt]
  · simp only [createWithConfigAttempt]
    split <;> simp
  · simp only [createWithConfigAttempt]
    split <;> simp

theorem configAttempt_calls (s : State) (res : HalResult) :
    (createWithConfigAttempt s res).2 =
      [ServiceCall.createWithConfig s.hintSessionThreadIds s.targetDuration] := by
  cases res <;> simp [createWithConfigAttempt]

theorem legacyAttempt_preserve (s : State) (res : HalResult) :
    (createLegacyAttempt s res).1.displayTimingData = s.displayTimingData ∧
    (createLegacyAttempt s res).1.hintSessionQueue = s.hintSessionQueue ∧
    (createLegacyAttempt s res).1.targetDuration = s.targetDuration ∧
    (createLegacyAttempt s res).1.lastTargetDurationSent = s.lastTargetDurationSent ∧
    (createLegacyAttempt s res).1.hintSessionThreadIds = s.hintSessionThreadIds ∧
    (createLegacyAttempt s res).1.bootFinished = s.bootFinished ∧
    (createLegacyAttempt s res).1.sessionConfigSupported = s.sessionConfigSupported ∧
    (createLegacyAttempt s res).1.firstConfigSupportCheck = s.firstConfigSupportCheck ∧
    (createLegacyAttempt s res).1.hintSessionEnabled = s.hintSessionEnabled ∧
    (createLegacyAttempt s res).1.supportsHintSession = s.supportsHintSession := by
  cases res <;> simp [createLegacyAttempt]

theorem legacyAttempt_calls (s : State) (res : HalResult) :
    (createLegacyAttempt s res).2 =
      [ServiceCall.createLegacy s.hintSessionThreadIds s.targetDuration] := by
  cases res <;> simp [createLegacyAttempt]

theorem ensure_preserve (cfg : Config) (s : State) (r : SessionResponses) :
    (ensurePowerHintSessionRunning cfg s r).state.displayTimingData = s.displayTimingData ∧
    (ensurePowerHintSessionRunning cfg s r).state.hintSessionQueue = s.hintSessionQueue ∧
    (ensurePowerHintSessionRunning cfg s r).state.targetDuration = s.targetDuration ∧
    (ensurePowerHintSessionRunning cfg s r).state.lastTargetDurationSent
      = s.lastTargetDurationSent ∧
    (ensurePowerHintSessionRunning cfg s r).state.hintSessionThreadIds
      = s.hintSessionThreadIds ∧
    (ensurePowerHintSessionRunning cfg s r).state.bootFinished = s.bootFinished := by
  obtain ⟨hd, hc, hf, hh, ht, htd, hl, hq, hb⟩ := useStep_preserve s r.preferredRateOk
  obtain ⟨cd, cq, ctd, cl, ct, cb, _, _⟩ :=
    configAttempt_preserve (usePowerHintSessionStep s r.preferredRateOk).state r.configRes
  unfold ensurePowerHintSessionRunning
  dsimp only
  split
  · simp
  split
  · simp
  split
  · simp [hd, hq, htd, hl, ht, hb]
  obtain ⟨l1d, l1q, l1td, l1l, l1t, l1b, _, _, _, _⟩ :=
    legacyAttempt_preserve (createWithConfigAttempt
      (usePowerHintSessionStep s r.preferredRateOk).state r.configRes).1 r.legacyRes
  obtain ⟨l2d, l2q, l2td, l2l, l2t, l2b, _, _, _, _⟩ :=
    legacyAttempt_preserve (usePowerHintSessionStep s r.preferredRateOk).state r.legacyRes
  split <;> (try split) <;> simp_all

theorem ensure_calls_good (cfg : Config) (s : State) (r : SessionResponses) :
    goodCreations (ensurePowerHintSessionRunning cfg s r).calls = true := by
  obtain ⟨hd, hc, hf, hh, ht, htd, hl, hq, hb⟩ := useStep_preserve s r.preferredRateOk
  obtain ⟨hg, -⟩ := useStep_calls_good s r.preferredRateOk
  obtain ⟨-, -, -, -, ct, -, -, -⟩ :=
    configAttempt_preserve (usePowerHintSessionStep s r.preferredRateOk).state r.configRes
  unfold ensurePowerHintSessionRunning
  dsimp only
  split
  · rfl
  split
  · rfl
  split
  · exact hg
  split <;> (try split) <;>
    simp_all [goodCreations_append, configAttempt_calls, legacyAttempt_calls,
      goodCreations, creationOk]

theorem ensure_configFalse (cfg : Config) (s : State) (r : SessionResponses)
    (h : s.sessionConfigSupported = false) :
    (ensurePowerHintSessionRunning cfg s r).state.sessionConfigSupported = false ∧
    noConfigCreate (ensurePowerHintSessionRunning cfg s r).calls = true := by
  obtain ⟨hd, hc, hf, hh, ht, htd, hl, hq, hb⟩ := useStep_preserve s r.preferredRateOk
  obtain ⟨-, hn⟩ := useStep_calls_good s r.preferredRateOk
  obtain ⟨-, -, -, -, -, -, sc, fc, -, -⟩ :=
    legacyAttempt_preserve (usePowerHintSessionStep s r.preferredRateOk).state r.legacyRes
  have hshould : shouldCreateSessionWithConfig cfg
      (usePowerHintSessionStep s r.preferredRateOk).state = false := by
    simp [shouldCreateSessionWithConfig, hc, h]
  unfold ensurePowerHintSessionRunning
  dsimp only
  split
  · simp_all [noConfigCreate]
  split
  · simp_all [noConfigCreate]
  split
  · exact ⟨by simp_all, hn⟩
  split <;> (try split) <;>
    simp_all [noConfigCreate_append, legacyAttempt_calls, noConfigCreate, isConfigCreate]

theorem configAttempt_fail_state (s : State) (res : HalResult)
    (hne : res ≠ .ok) (hfirst : s.firstConfigSupportCheck = true ∨ res = .unsupported) :
    (createWithConfigAttempt s res).1.sessionConfigSupported = false := by
  cases res with
  | ok => exact absurd rfl hne
  | failed =>
    rcases hfirst with hfc | hcontra
    · simp [createWithConfigAttempt, hfc]
    · exact absurd hcontra (by simp)
  | unsupported => simp [createWithConfigAttempt]

theorem ensure_configAttempt_fails (cfg : Config) (s : State) (r : SessionResponses)
    (hattempt : hasConfigCreate (ensurePowerHintSessionRunning cfg s r).calls = true)
    (hne : r.configRes ≠ .ok)
    (hfirst : s.firstConfigSupportCheck = true ∨ r.configRes = .unsupported) :
    (ensurePowerHintSessionRunning cfg s r).state.sessionConfigSupported = false := by
  obtain ⟨hd, hc, hf, hh, ht, htd, hl, hq, hb⟩ := useStep_preserve s r.preferredRateOk
  have hun : hasConfigCreate (usePowerHintSessionStep s r.preferredRateOk).calls = false :=
    useStep_noConfig s r.preferredRateOk
  have hfail : (createWithConfigAttempt
      (usePowerHintSessionStep s r.preferredRateOk).state r.configRes).1.sessionConfigSupported
      = false :=
    configAttempt_fail_state _ r.configRes hne (by rw [hf]; exact hfirst)
  obtain ⟨-, -, -, -, -, -, sc1, -, -, -⟩ :=
    legacyAttempt_preserve (createWithConfigAttempt
      (usePowerHintSessionStep s r.preferredRateOk).state r.configRes).1 r.legacyRes
  unfold ensurePowerHintSessionRunning at hattempt ⊢
  dsimp only at hattempt ⊢
  by_cases h1 : s.hintSession = true
  · simp only [h1, if_true] at hattempt
    simp [hasConfigCreate] at hattempt
  simp only [h1, if_false, Bool.false_eq_true] at hattempt ⊢
  by_cases h2 : s.hintSessionThreadIds.isEmpty = true
  · simp only [h2, if_true] at hattempt
    simp [hasConfigCreate] at hattempt
  simp only [h2, if_false, Bool.false_eq_true] at hattempt ⊢
  by_cases h3 : (!(usePowerHintSessionStep s r.preferredRateOk).result) = true
  · simp only [h3, if_true] at hattempt
    simp only [hun] at hattempt
    exact absurd hattempt (by simp)
  simp only [h3, if_false, Bool.false_eq_true] at hattempt ⊢
  by_cases h4 : shouldCreateSessionWithConfig cfg
      (usePowerHintSessionStep s r.preferredRateOk).state = true
  · simp only [h4, if_true] at hattempt ⊢
    split
    · exact sc1.trans hfail
    · exact hfail
  · simp only [h4, if_false, Bool.false_eq_true] at hattempt ⊢
    exfalso
    split at hattempt <;>
      simp [hasConfigCreate_append, legacyAttempt_calls, hasConfigCreate_singleton, hun,
        isConfigCreate] at hattempt

/-! ## Step-level lemmas -/

theorem goodCreations_nil : goodCreations [] = true := rfl

theorem goodCreations_cons (e : ServiceCall) (l : List ServiceCall) :
    goodCreations (e :: l) = (creationOk e && goodCreations l) := by
  simp [goodCreations]

theorem useStep_calls_goodCreations (s : State) (b : Bool) :
    goodCreations (usePowerHintSessionStep s b).calls = true :=
  (useStep_calls_good s b).1

theorem step_calls_good (cfg : Config) (s : State) (op : Op) :
    goodCreations (step cfg s op).2 = true := by
  cases op <;>
    simp only [step] <;>
    (try rfl) <;>
    (repeat' split) <;>
    simp [goodCreations_append, goodCreations_cons, goodCreations_nil, creationOk,
      useStep_calls_goodCreations, ensure_calls_good]

theorem noConfigCreate_nil : noConfigCreate [] = true := rfl

theorem noConfigCreate_cons (e : ServiceCall) (l : List ServiceCall) :
    noConfigCreate (e :: l) = (!isConfigCreate e && noConfigCreate l) := by
  simp [noConfigCreate]

theorem useStep_calls_noConfig (s : State) (b : Bool) :
    noConfigCreate (usePowerHintSessionStep s b).calls = true :=
  (useStep_calls_good s b).2

theorem useStep_sessionConfigSupported (s : State) (b : Bool) :
    (usePowerHintSessionStep s b).state.sessionConfigSupported = s.sessionConfigSupported :=
  (useStep_preserve s b).2.1

theorem useStep_firstConfigSupportCheck (s : State) (b : Bool) :
    (usePowerHintSessionStep s b).state.firstConfigSupportCheck = s.firstConfigSupportCheck :=
  (useStep_preserve s b).2.2.1

theorem ensure_state_configFalse (cfg : Config) (s : State) (r : SessionResponses)
    (h : s.sessionConfigSupported = false) :
    (ensurePowerHintSessionRunning cfg s r).state.sessionConfigSupported = false :=
  (ensure_configFalse cfg s r h).1

theorem ensure_calls_noConfig_of_false (cfg : Config) (s : State) (r : SessionResponses)
    (h : s.sessionConfigSupported = false) :
    noConfigCreate (ensurePowerHintSessionRunning cfg s r).calls = true :=
  (ensure_configFalse cfg s r h).2

theorem step_configFalse (cfg : Config) (s : State) (op : Op)
    (h : s.sessionConfigSupported = false) :
    (step cfg s op).1.sessionConfigSupported = false ∧
    noConfigCreate (step cfg s op).2 = true := by
  cases op <;>
    simp only [step] <;>
    (repeat' split) <;>
    constructor <;>
    simp [h, noConfigCreate_append, noConfigCreate_cons, noConfigCreate_nil, isConfigCreate,
      useStep_calls_noConfig, useStep_sessionConfigSupported,
      ensure_state_configFalse, ensure_calls_noConfig_of_false]

theorem runTrace_configFalse (cfg : Config) (s : State) (ops : List Op)
    (h : s.sessionConfigSupported = false) :
    (runTrace cfg s ops).1.sessionConfigSupported = false ∧
    noConfigCreate (runTrace cfg s ops).2 = true := by
  induction ops generalizing s with
  | nil => exact ⟨h, rfl⟩
  | cons op rest ih =>
    simp only [runTrace]
    obtain ⟨h1, h2⟩ := step_configFalse cfg s op h
    obtain ⟨h3, h4⟩ := ih (step cfg s op).1 h1
    exact ⟨h3, by rw [noConfigCreate_append, h2, h4]; rfl⟩

theorem step_configAttempt_fails (cfg : Config) (s : State) (op : Op) (r : SessionResponses)
    (hr : opResponses op = some r)
    (hattempt : hasConfigCreate (step cfg s op).2 = true)
    (hne : r.configRes ≠ .ok)
    (hfirst : s.firstConfigSupportCheck = true ∨ r.configRes = .unsupported) :
    (step cfg s op).1.sessionConfigSupported = false := by
  cases op with
  | startPowerHintSession tids r' =>
    simp only [opResponses, Option.some.injEq] at hr
    subst hr
    simp only [step] at hattempt ⊢
    split at hattempt <;> rename_i h1
    · exact absurd hattempt (by simp [hasConfigCreate])
    rw [if_neg h1]
    split at hattempt <;> rename_i h2
    · exact absurd hattempt (by simp [useStep_noConfig])
    rw [if_neg h2]
    split at hattempt <;> rename_i h3
    · exact absurd hattempt (by simp [useStep_noConfig])
    rw [if_neg h3]
    split at hattempt <;> rename_i h4
    · exact absurd hattempt (by simp [useStep_noConfig])
    rw [if_neg h4]
    have hea : hasConfigCreate (ensurePowerHintSessionRunning cfg
        (usePowerHintSessionStep { s with hintSessionThreadIds := tids }
          r'.preferredRateOk).state r').calls = true := by
      revert hattempt
      simp [hasConfigCreate_append, useStep_noConfig]
    exact ensure_configAttempt_fails cfg _ r' hea hne (by
      rcases hfirst with hf | hf
      · exact Or.inl ((useStep_firstConfigSupportCheck
          { s with hintSessionThreadIds := tids } r'.preferredRateOk).trans hf)
      · exact Or.inr hf)
  | updateTargetWorkDuration target r' =>
    simp only [opResponses, Option.some.injEq] at hr
    subst hr
    simp only [step] at hattempt ⊢
    split at hattempt <;> rename_i h1
    · exact absurd hattempt (by simp [useStep_noConfig])
    rw [if_neg h1]
    split at hattempt <;> rename_i h2
    · exact absurd hattempt (by simp [useStep_noConfig])
    rw [if_neg h2]
    have hea : hasConfigCreate (ensurePowerHintSessionRunning cfg
        { (usePowerHintSessionStep s r'.preferredRateOk).state with
          targetDuration := target } r').calls = true := by
      revert hattempt
      split <;> rename_i h3
      · split <;> rename_i h4 <;>
          simp [hasConfigCreate_append, hasConfigCreate_singleton, useStep_noConfig,
            isConfigCreate]
      · simp [hasConfigCreate_append, useStep_noConfig]
    have hconc := ensure_configAttempt_fails cfg
      { (usePowerHintSessionStep s r'.preferredRateOk).state with
        targetDuration := target } r' hea hne (by
        rcases hfirst with hf | hf
        · exact Or.inl ((useStep_firstConfigSupportCheck s r'.preferredRateOk).trans hf)
        · exact Or.inr hf)
    split <;> rename_i h3
    · split <;> rename_i h4 <;> exact hconc
    · exact hconc
  | notifyCpuLoadUp r' =>
    simp only [opResponses, Option.some.injEq] at hr
    subst hr
    simp only [step] at hattempt ⊢
    split at hattempt <;> rename_i h1
    · exact absurd hattempt (by simp [hasConfigCreate])
    rw [if_neg h1]
    split at hattempt <;> rename_i h2
    · exact absurd hattempt (by simp [useStep_noConfig])
    rw [if_neg h2]
    have hea : hasConfigCreate (ensurePowerHintSessionRunning cfg
        (usePowerHintSessionStep s r'.preferredRateOk).state r').calls = true := by
      revert hattempt
      split <;> rename_i h3
      · split <;> rename_i h4 <;>
          simp [hasConfigCreate_append, hasConfigCreate_singleton, useStep_noConfig,
            isConfigCreate]
      · simp [hasConfigCreate_append, useStep_noConfig]
    have hconc := ensure_configAttempt_fails cfg
      (usePowerHintSessionStep s r'.preferredRateOk).state r' hea hne (by
        rcases hfirst with hf | hf
        · exact Or.inl ((useStep_firstConfigSupportCheck s r'.preferredRateOk).trans hf)
        · exact Or.inr hf)
    split <;> rename_i h3
    · split <;> rename_i h4 <;> exact hconc
    · exact hconc
  | reportActualWorkDuration now r' =>
    simp only [opResponses, Option.some.injEq] at hr
    subst hr
    simp only [step] at hattempt ⊢
    split at hattempt <;> rename_i h1
    · exact absurd hattempt (by simp [hasConfigCreate])
    rw [if_neg h1]
    split at hattempt <;> rename_i h2
    · exact absurd hattempt (by simp [useStep_noConfig])
    rw [if_neg h2]
    split at hattempt <;> rename_i wd h3
    · exact absurd hattempt (by simp [useStep_noConfig])
    split at hattempt <;> rename_i h4
    · exact absurd hattempt (by simp [useStep_noConfig])
    rw [if_neg h4]
    have hea : hasConfigCreate (ensurePowerHintSessionRunning cfg
        (usePowerHintSessionStep s r'.preferredRateOk).state r').calls = true := by
      revert hattempt
      split <;> rename_i h5
      · simp [hasConfigCreate_append, useStep_noConfig]
      · split <;> rename_i h6 <;>
          simp [hasConfigCreate_append, hasConfigCreate_singleton, useStep_noConfig,
            isConfigCreate]
    have hconc := ensure_configAttempt_fails cfg
      (usePowerHintSessionStep s r'.preferredRateOk).state r' hea hne (by
        rcases hfirst with hf | hf
        · exact Or.inl ((useStep_firstConfigSupportCheck s r'.preferredRateOk).trans hf)
        · exact Or.inr hf)
    split <;> rename_i h5
    · exact hconc
    · split <;> rename_i h6 <;> exact hconc
  | onBootFinished => simp [opResponses] at hr
  | enablePowerHintSession enabled => simp [opResponses] at hr
  | setGpuStartTime id t => simp [opResponses] at hr
  | setGpuFenceTime id fence now => simp [opResponses] at hr
  | setHwcValidateTiming id a b => simp [opResponses] at hr
  | setHwcPresentTiming id a b => simp [opResponses] at hr
  | setSkippedValidate id skipped => simp [opResponses] at hr
  | setRequiresRenderEngine id required => simp [opResponses] at hr
  | setExpectedPresentTime t => simp [opResponses] at hr
  | setSfPresentTiming a b => simp [opResponses] at hr
  | setFrameDelay d => simp [opResponses] at hr
  | setHwcPresentDelayedTime id t => simp [opResponses] at hr
  | setCommitStart t => simp [opResponses] at hr
  | setCompositeEnd t => simp [opResponses] at hr
  | setDisplays ids => simp [opResponses] at hr
  | setTotalFrameTargetWorkDuration d => simp [opResponses] at hr

theorem useStep_displayTimingData (s : State) (b : Bool) :
    (usePowerHintSessionStep s b).state.displayTimingData = s.displayTimingData :=
  (useStep_preserve s b).1

theorem ensure_displayTimingData (cfg : Config) (s : State) (r : SessionResponses) :
    (ensurePowerHintSessionRunning cfg s r).state.displayTimingData = s.displayTimingData :=
  (ensure_preserve cfg s r).1

theorem setGpuStartTimeData_lastValid (m : TimingMap) (tid : DisplayId) (t : Int)
    (id : DisplayId)
    (h : fenceSignaled (getTiming m id).gpuEndFenceTime = false) :
    (getTiming (setGpuStartTimeData m tid t) id).lastValidGpuStartTime =
      (getTiming m id).lastValidGpuStartTime ∧
    (getTiming (setGpuStartTimeData m tid t) id).lastValidGpuEndTime =
      (getTiming m id).lastValidGpuEndTime := by
  by_cases e : tid = id
  · subst e
    cases hf : (getTiming m tid).gpuEndFenceTime with
    | none => simp [setGpuStartTimeData, hf, getTiming_setTiming]
    | some f =>
      cases f with
      | pending => simp [setGpuStartTimeData, hf, getTiming_setTiming]
      | invalid => simp [setGpuStartTimeData, hf, getTiming_setTiming]
      | signaled ts => simp [fenceSignaled, hf] at h
  · constructor <;> simp [setGpuStartTimeData, getTiming_setTiming, e]

theorem setGpuFenceTimeData_lastValid (flag : Bool) (m : TimingMap) (tid : DisplayId)
    (fence : Option FenceSignal) (now : Int) (id : DisplayId)
    (h : fenceSignaled (getTiming m id).gpuEndFenceTime = false) :
    (getTiming (setGpuFenceTimeData flag m tid fence now) id).lastValidGpuStartTime =
      (getTiming m id).lastValidGpuStartTime ∧
    (getTiming (setGpuFenceTimeData flag m tid fence now) id).lastValidGpuEndTime =
      (getTiming m id).lastValidGpuEndTime := by
  by_cases e : tid = id
  · subst e
    cases hf : (getTiming m tid).gpuEndFenceTime with
    | none =>
      constructor <;> simp [setGpuFenceTimeData, hf, getTiming_setTiming] <;> split <;> rfl
    | some f =>
      cases f with
      | pending =>
        constructor <;> simp [setGpuFenceTimeData, hf, getTiming_setTiming] <;> split <;> rfl
      | invalid =>
        constructor <;> simp [setGpuFenceTimeData, hf, getTiming_setTiming] <;> split <;> rfl
      | signaled ts => simp [fenceSignaled, hf] at h
  · constructor <;> simp [setGpuFenceTimeData, getTiming_setTiming, e]

/-- C9: for every display record and every engine operation, the
lastValidGpuStartTime/lastValidGpuEndTime pair is only overwritten when the
record's GPU end fence has actually signaled (neither absent, pending nor
invalid): as long as the fence has not signaled, every operation leaves the
last-valid pair of that record unchanged. -/
theorem lastValid_overwritten_only_on_signaled (cfg : Config) (s : State) (op : Op)
    (id : DisplayId)
    (h : fenceSignaled (getTiming s.displayTimingData id).gpuEndFenceTime = false) :
    (getTiming (step cfg s op).1.displayTimingData id).lastValidGpuStartTime =
      (getTiming s.displayTimingData id).lastValidGpuStartTime ∧
    (getTiming (step cfg s op).1.displayTimingData id).lastValidGpuEndTime =
      (getTiming s.displayTimingData id).lastValidGpuEndTime := by
  cases op with
  | onBootFinished => exact ⟨rfl, rfl⟩
  | enablePowerHintSession enabled => exact ⟨rfl, rfl⟩
  | startPowerHintSession tids r =>
    have hdt : (step cfg s (Op.startPowerHintSession tids r)).1.displayTimingData
        = s.displayTimingData := by
      simp only [step]
      (repeat' split) <;>
        simp [useStep_displayTimingData, ensure_displayTimingData]
    rw [hdt]; exact ⟨rfl, rfl⟩
  | updateTargetWorkDuration target r =>
    have hdt : (step cfg s (Op.updateTargetWorkDuration target r)).1.displayTimingData
        = s.displayTimingData := by
      simp only [step]
      (repeat' split) <;>
        simp [useStep_displayTimingData, ensure_displayTimingData]
    rw [hdt]; exact ⟨rfl, rfl⟩
  | notifyCpuLoadUp r =>
    have hdt : (step cfg s (Op.notifyCpuLoadUp r)).1.displayTimingData
        = s.displayTimingData := by
      simp only [step]
      (repeat' split) <;>
        simp [useStep_displayTimingData, ensure_displayTimingData]
    rw [hdt]; exact ⟨rfl, rfl⟩
  | reportActualWorkDuration now r =>
    have hdt : (step cfg s (Op.reportActualWorkDuration now r)).1.displayTimingData
        = s.displayTimingData := by
      simp only [step]
      (repeat' split) <;>
        simp [useStep_displayTimingData, ensure_displayTimingData]
    rw [hdt]; exact ⟨rfl, rfl⟩
  | setGpuStartTime tid t =>
    simpa only [step] using setGpuStartTimeData_lastValid s.displayTimingData tid t id h
  | setGpuFenceTime tid fence now =>
    simpa only [step] using
      setGpuFenceTimeData_lastValid cfg.adpfGpuSf s.displayTimingData tid fence now id h
  | setHwcValidateTiming tid a b =>
    by_cases e : tid = id <;> simp [step, getTiming_setTiming, e]
  | setHwcPresentTiming tid a b =>
    by_cases e : tid = id <;> simp [step, getTiming_setTiming, e]
  | setSkippedValidate tid skipped =>
    by_cases e : tid = id <;> simp [step, getTiming_setTiming, e]
  | setRequiresRenderEngine tid required =>
    by_cases e : tid = id <;> simp [step, getTiming_setTiming, e]
  | setExpectedPresentTime t => exact ⟨rfl, rfl⟩
  | setSfPresentTiming a b => exact ⟨rfl, rfl⟩
  | setFrameDelay d => exact ⟨rfl, rfl⟩
  | setHwcPresentDelayedTime tid t =>
    by_cases e : tid = id <;> simp [step, getTiming_setTiming, e]
  | setCommitStart t => exact ⟨rfl, rfl⟩
  | setCompositeEnd t => exact ⟨rfl, rfl⟩
  | setDisplays ids => exact ⟨rfl, rfl⟩
  | setTotalFrameTargetWorkDuration d => exact ⟨rfl, rfl⟩

/-- C9 witness: on a display whose end fence is pending, `setGpuStartTime`
leaves the last-valid pair untouched. -/
theorem lastValid_overwritten_only_on_signaled_witness :
    fenceSignaled (getTiming c9State.displayTimingData 3).gpuEndFenceTime = false ∧
    (getTiming (step {} c9State
        (.setGpuStartTime 3 77)).1.displayTimingData 3).lastValidGpuStartTime = some 5 :=
  ⟨by decide,
   by
    have := (lastValid_overwritten_only_on_signaled {} c9State
      (.setGpuStartTime 3 77) 3 (by decide)).1
    rw [this]
    decide⟩

/-! ## C1: what session creation requires -/

/-- C1 (amended): for every sequence of engine operations, every
session-creation call issued to the power-management service carries at least
one registered worker thread id; the boot-completion gate, however, is not a
precondition of session creation in general (it is checked on the start,
notify and report paths but not on the `updateTargetWorkDuration` path). -/
theorem runTrace_creations_have_threads (cfg : Config) (s : State) (ops : List Op) :
    goodCreations (runTrace cfg s ops).2 = true := by
  induction ops generalizing s with
  | nil => rfl
  | cons op rest ih =>
    simp only [runTrace]
    rw [goodCreations_append, step_calls_good, ih]
    rfl

/-- C1 counterexample: running `c1Ops` from the initial state issues a
session-creation call (`createHintSessionWithConfig`) to the service although
the boot-completion gate never opened — the final state still has
`bootFinished = false` and the trace contains no `onBootFinished`.
`updateTargetWorkDuration` does not check the boot gate before creating a
session, refuting the claim as stated. -/
theorem runTrace_creation_before_boot_cex :
    (runTrace c1Cfg {} c1Ops).2 =
      [.getPreferredRate, .createWithConfig [42] 100, .updateTarget 100] ∧
    (runTrace c1Cfg {} c1Ops).1.bootFinished = false := by
  decide

/-! ## C7: permanent fallback to the legacy creation path -/

/-- C7: once a config-path creation attempt fails on the very first attempt, or
ever returns unsupported, no subsequent operation in the process ever issues a
`createHintSessionWithConfig` call again: all further session creations use
only the legacy path. -/
theorem configPath_never_reattempted (cfg : Config) (s : State) (op : Op)
    (r : SessionResponses) (rest : List Op)
    (hr : opResponses op = some r)
    (hattempt : hasConfigCreate (step cfg s op).2 = true)
    (hne : r.configRes ≠ .ok)
    (hfirst : s.firstConfigSupportCheck = true ∨ r.configRes = .unsupported) :
    noConfigCreate (runTrace cfg (step cfg s op).1 rest).2 = true :=
  (runTrace_configFalse cfg _ rest
    (step_configAttempt_fails cfg s op r hr hattempt hne hfirst)).2

/-- C7 witness: after the unsupported config attempt in `c7Op`, the subsequent
operations issue no `createHintSessionWithConfig` call. -/
theorem configPath_never_reattempted_witness :
    opResponses c7Op = some c7Responses ∧
    hasConfigCreate (step {} c7State c7Op).2 = true ∧
    c7Responses.configRes ≠ .ok ∧
    (c7State.firstConfigSupportCheck = true ∨ c7Responses.configRes = .unsupported) ∧
    noConfigCreate (runTrace {} (step {} c7State c7Op).1 c7Rest).2 = true :=
  ⟨by decide, by decide, by decide, by decide,
   configPath_never_reattempted {} c7State c7Op c7Responses c7Rest
     (by decide) (by decide) (by decide) (by decide)⟩

/-! ## C8 and C10: target-update throttling and the failure path -/

/-- C8: with an enabled, supported session already running, calling
`updateTargetWorkDuration` twice in succession with the same (new) target value
makes exactly one `updateTargetWorkDuration` call reach the service: the first
call sends it, and the second call is a no-op because the new target equals the
last one sent. -/
theorem updateTarget_throttles_second_call (cfg : Config) (s : State) (t : Int)
    (r1 r2 : SessionResponses)
    (hE : s.hintSessionEnabled = some true)
    (hS : s.supportsHintSession = some true)
    (hRun : s.hintSession = true)
    (hNe : t ≠ s.lastTargetDurationSent)
    (hOk : r1.callRes = .ok) :
    (step cfg s (.updateTargetWorkDuration t r1)).2 = [.updateTarget t] ∧
    (step cfg (step cfg s (.updateTargetWorkDuration t r1)).1
        (.updateTargetWorkDuration t r2)).2 = [] ∧
    countUpdateTarget ((step cfg s (.updateTargetWorkDuration t r1)).2 ++
      (step cfg (step cfg s (.updateTargetWorkDuration t r1)).1
        (.updateTargetWorkDuration t r2)).2) = 1 := by
  have h1 : step cfg s (.updateTargetWorkDuration t r1) =
      ({ s with targetDuration := t, lastTargetDurationSent := t }, [.updateTarget t]) := by
    simp [step, usePowerHintSessionStep, supportsPowerHintSessionStep,
      ensurePowerHintSessionRunning, hE, hS, hRun, hNe, hOk]
  have h2 : step cfg { s with targetDuration := t, lastTargetDurationSent := t }
      (.updateTargetWorkDuration t r2) =
      ({ s with targetDuration := t, lastTargetDurationSent := t }, []) := by
    simp [step, usePowerHintSessionStep, supportsPowerHintSessionStep, hE, hS]
  rw [h1]
  constructor
  · rfl
  rw [h2]
  exact ⟨rfl, rfl⟩

/-- C8 witness: a running session, target 7 differing from the last-sent
default; across the two same-target calls exactly one update reaches the
service. -/
theorem updateTarget_throttles_second_call_witness :
    c8State.hintSessionEnabled = some true ∧
    (7 : Int) ≠ c8State.lastTargetDurationSent ∧
    countUpdateTarget ((step {} c8State (.updateTargetWorkDuration 7 {})).2 ++
      (step {} (step {} c8State (.updateTargetWorkDuration 7 {})).1
        (.updateTargetWorkDuration 7 {})).2) = 1 :=
  ⟨rfl, by decide,
   (updateTarget_throttles_second_call {} c8State 7 {} {} rfl rfl rfl (by decide) rfl).2.2⟩

/-- C10: `updateTargetWorkDuration` records the new target as the last target
sent before making the service call; when that call fails the session handle is
dropped, and every subsequent call with the same target value returns without
contacting the service and without changing the state — the failed value is
never re-sent until a different target is supplied. -/
theorem updateTarget_failed_value_not_resent (cfg : Config) (s : State) (t : Int)
    (r1 : SessionResponses)
    (hE : s.hintSessionEnabled = some true)
    (hS : s.supportsHintSession = some true)
    (hRun : s.hintSession = true)
    (hNe : t ≠ s.lastTargetDurationSent)
    (hFail : r1.callRes ≠ .ok) :
    (step cfg s (.updateTargetWorkDuration t r1)).2 = [.updateTarget t] ∧
    (step cfg s (.updateTargetWorkDuration t r1)).1.lastTargetDurationSent = t ∧
    (step cfg s (.updateTargetWorkDuration t r1)).1.hintSession = false ∧
    (∀ n r2, runTrace cfg (step cfg s (.updateTargetWorkDuration t r1)).1
        (List.replicate n (.updateTargetWorkDuration t r2)) =
      ((step cfg s (.updateTargetWorkDuration t r1)).1, [])) := by
  have h1 : step cfg s (.updateTargetWorkDuration t r1) =
      ({ s with targetDuration := t, lastTargetDurationSent := t, hintSession := false },
        [.updateTarget t]) := by
    simp [step, usePowerHintSessionStep, supportsPowerHintSessionStep,
      ensurePowerHintSessionRunning, hE, hS, hRun, hNe, hFail]
  rw [h1]
  dsimp only
  refine ⟨rfl, rfl, rfl, ?_⟩
  intro n r2
  induction n with
  | zero => rfl
  | succ k ih =>
    have h2 : step cfg
        { s with targetDuration := t, lastTargetDurationSent := t, hintSession := false }
        (.updateTargetWorkDuration t r2) =
        ({ s with targetDuration := t, lastTargetDurationSent := t, hintSession := false },
          []) := by
      simp [step, usePowerHintSessionStep, supportsPowerHintSessionStep, hE, hS]
    rw [List.replicate_succ]
    simp [runTrace, h2, ih]

/-- C10 witness: a failing update of target 7 from a running session; two
further same-target updates contact the service no more and leave the state
unchanged. -/
theorem updateTarget_failed_value_not_resent_witness :
    c10State.hintSession = true ∧
    runTrace {} (step {} c10State (.updateTargetWorkDuration 7 { callRes := .failed })).1
      (List.replicate 2 (.updateTargetWorkDuration 7 {})) =
    ((step {} c10State (.updateTargetWorkDuration 7 { callRes := .failed })).1, []) :=
  ⟨rfl,
   (updateTarget_failed_value_not_resent {} c10State 7 { callRes := .failed }
     rfl rfl rfl (by decide) (by decide)).2.2.2 2 {}⟩

end PowerAdvisor
